import Mathlib

/-!
Verification of the capture-orchestration core of the two-camera book
scanner (`scan.py`).  The definitions below are a shallow embedding of the
source: the device registry (`get_all_camera_serials` and its helpers),
the serial-to-port resolution loops, and one iteration of the main
scanning loop (`loopStep`), with the nondeterministic inputs of an
iteration (the snapshot returned by discovery, the capture processes'
exit codes, the digits typed after `n`) supplied through a `CaptureEnv`
record and the external side effects recorded as an `Event` trace.
-/

namespace BookScanner

/-- A transient OS-assigned device address, e.g. the gphoto2 string
`usb:001,004`. -/
abbrev Port := String

/-- A stable device identity: the camera's hardware serial number. -/
abbrev Serial := String

/-- A registry snapshot: the `port_serial_map` dict built by
`get_all_camera_serials`, as an association list with distinct ports. -/
abbrev PortSerialMap := List (Port × Serial)

/-- Serial extraction from one line of `gphoto2 --summary` output,
mirroring the regular expression `Serial Number:\s+(.+)` followed by
`.strip()`: the text after the marker must begin with whitespace and
contain a nonempty value once trimmed. -/
def serialOfLine (line : String) : Option Serial :=
  match line.splitOn "Serial Number:" with
  | _ :: rest :: _ =>
    if rest.startsWith " " || rest.startsWith "\t" then
      let v := rest.trim
      if v.isEmpty then none else some v
    else none
  | _ => none

/-- Serial extraction from the whole `--summary` output: the first line
with a `Serial Number:` field that parses (the regex search scans the
text and takes the first match). -/
def findSerial (output : String) : Option Serial :=
  (output.splitOn "\n").foldl
    (fun acc line =>
      match acc with
      | some s => some s
      | none => serialOfLine line)
    none

/-- The serial field of `get_camera_info(port)`.  The argument is the
result of the `--summary` subprocess: `none` models a timeout or a raised
error (all exceptions are caught and leave the serial `None`), `some out`
its decoded output, which is then parsed. -/
def get_camera_info_serial (summaryOut : Option String) : Option Serial :=
  match summaryOut with
  | none => none
  | some out => findSerial out

/-- `query_single_port_serial(port)`: pairs the port with the serial
obtained from its summary.  Total by construction — the source catches
every exception and returns `(port, None, ...)`. -/
def query_single_port_serial (summary : Port → Option String) (p : Port) :
    Port × Option Serial :=
  (p, get_camera_info_serial (summary p))

/-- `get_all_camera_serials()`: queries every discovered port and keeps
an entry only when a serial resolved (`if serial:`).  The worker-pool
completion order is nondeterministic; the list is assembled here in
discovery order, and order-independence of resolution is proved
separately. -/
def get_all_camera_serials (summary : Port → Option String)
    (ports : List Port) : PortSerialMap :=
  ports.filterMap fun p =>
    match (query_single_port_serial summary p).2 with
    | some s => some (p, s)
    | none => none

/-- The toggle at the top of each capture branch: with the query toggle
on, `get_all_camera_serials()` is called; with it off, the `else` arm
calls the very same function. -/
def preCaptureSnapshot (query_toggle : Bool) (summary : Port → Option String)
    (ports : List Port) : PortSerialMap :=
  if query_toggle then get_all_camera_serials summary ports
  else get_all_camera_serials summary ports

/-- The serial-to-port reverse lookup of the single-camera branches:
`cam = None; for port, serial in port_serial_map.items(): if serial ==
bound: cam = port`. -/
def resolve (bound : Serial) (m : PortSerialMap) : Option Port :=
  m.foldl (fun acc ps => if ps.2 = bound then some ps.1 else acc) none

/-- The two-role lookup of the capture-both branch, with its `if`/`elif`:
an entry matching the left serial never also assigns the right camera. -/
def resolveBoth (leftS rightS : Serial) (m : PortSerialMap) :
    Option Port × Option Port :=
  m.foldl
    (fun acc ps =>
      if ps.2 = leftS then (some ps.1, acc.2)
      else if ps.2 = rightS then (acc.1, some ps.1)
      else acc)
    (none, none)

theorem resolve_append (bound : Serial) (l : PortSerialMap) (a : Port × Serial) :
    resolve bound (l ++ [a]) =
      if a.2 = bound then some a.1 else resolve bound l := by
  simp [resolve, List.foldl_append]

theorem resolve_eq_find (bound : Serial) (m : PortSerialMap) :
    resolve bound m =
      (m.reverse.find? fun ps => ps.2 = bound).map Prod.fst := by
  induction m using List.reverseRecOn with
  | nil => rfl
  | append_singleton l a ih =>
    rw [resolve_append, List.reverse_append]
    by_cases h : a.2 = bound
    · simp [h, List.find?_cons]
    · simp [h, List.find?_cons, ih]

theorem resolve_eq_none (bound : Serial) (m : PortSerialMap) :
    resolve bound m = none ↔ ∀ p : Port, (p, bound) ∉ m := by
  rw [resolve_eq_find]
  simp only [Option.map_eq_none', List.find?_eq_none, List.mem_reverse,
    decide_eq_true_eq]
  constructor
  · intro h p hp
    exact (h (p, bound) hp) rfl
  · intro h ps hps hserial
    exact h ps.1 (by rw [← hserial]; exact hps)

theorem mem_of_resolve_eq_some {bound : Serial} {m : PortSerialMap} {p : Port}
    (h : resolve bound m = some p) : (p, bound) ∈ m := by
  rw [resolve_eq_find] at h
  rcases Option.map_eq_some'.mp h with ⟨a, hfind, hfst⟩
  have hserial : a.2 = bound := by
    have := List.find?_some hfind
    simpa using this
  have hmem : a ∈ m := List.mem_reverse.mp (List.mem_of_find?_eq_some hfind)
  have : a = (p, bound) := by
    cases a
    simp_all
  rwa [this] at hmem

theorem resolve_eq_some {bound : Serial} {m : PortSerialMap} {p : Port}
    (hfun : ∀ a b : Port, (a, bound) ∈ m → (b, bound) ∈ m → a = b)
    (hp : (p, bound) ∈ m) : resolve bound m = some p := by
  cases hres : resolve bound m with
  | none => exact absurd hp ((resolve_eq_none bound m).mp hres p)
  | some q => rw [hfun q p (mem_of_resolve_eq_some hres) hp]

theorem resolve_perm {bound : Serial} {m m' : PortSerialMap}
    (hfun : ∀ a b : Port, (a, bound) ∈ m → (b, bound) ∈ m → a = b)
    (hperm : m.Perm m') : resolve bound m' = resolve bound m := by
  cases hres : resolve bound m with
  | none =>
    have habs := (resolve_eq_none bound m).mp hres
    exact (resolve_eq_none bound m').mpr
      (fun p hp => habs p (hperm.mem_iff.mpr hp))
  | some p =>
    have hp : (p, bound) ∈ m := mem_of_resolve_eq_some hres
    have hfun2 : ∀ a b : Port, (a, bound) ∈ m' → (b, bound) ∈ m' → a = b :=
      fun a b ha hb => hfun a b (hperm.mem_iff.mpr ha) (hperm.mem_iff.mpr hb)
    exact resolve_eq_some hfun2 (hperm.mem_iff.mp hp)

/-- ASCII decimal digit test, as `int()` accepts the single characters and
digit strings this loop passes it (codes 48-57). -/
def isDigitChar (c : Char) : Bool := decide (48 ≤ c.toNat ∧ c.toNat ≤ 57)

/-- Python `int(s)` on the strings the loop can hand it: a nonempty
all-digit string parses to its decimal value, anything else raises a
`ValueError` (modelled as `none`). -/
def int_py (s : String) : Option Nat :=
  if s.data ≠ [] ∧ s.data.all isDigitChar then
    some (s.data.foldl (fun a c => 10 * a + (c.toNat - 48)) 0)
  else none

/-- The key bound to the capture-both action (`CAPTURE_KEY = "b"`). -/
def CAPTURE_KEY : String := "b"

/-- The filename `IMG_FORMAT % n`, i.e. `img%05d.jpg`. -/
def img_format (n : Nat) : String :=
  let s := toString n
  "img" ++ String.mk (List.replicate (5 - s.length) '0') ++ s ++ ".jpg"

/-- The mutable state the scanning loop carries across iterations: the
image counter and mode flags (loop locals) and the bound serials and
displayed ports (`scanner_state` fields), plus `previous_cameras`. -/
structure ScanState where
  img_num : Nat
  use_parallel : Bool
  query_serials : Bool
  left_cam_serial : Serial
  right_cam_serial : Serial
  left_cam_port : Port
  right_cam_port : Port
  previous_cameras : List Port
deriving DecidableEq, Repr

/-- The nondeterministic inputs of one loop iteration: the snapshot
returned by `get_all_camera_serials` (and the one a serial-mode second
query would return), the exit codes the left and right capture processes
would report, and the digit string typed after `n`. -/
structure CaptureEnv where
  port_serial_map : PortSerialMap
  port_serial_map2 : PortSerialMap
  exit_left : Int
  exit_right : Int
  num_str : String
deriving DecidableEq, Repr

/-- Externally visible actions of one iteration.  `snapStart p n` records
`snap(p, IMG_FORMAT % n)`, i.e. the launch of a capture process for port
`p` writing image number `n`; `procWait` a `p.wait()` on that single
process; `waitBoth` the polling `wait(p1, p2)`; `sleepSettle` the
one-second USB settle pause of serial mode; `portShift` the
port-reassignment notice; `rotate n d` the `jpegtran -rot d` step on
image number `n`. -/
inductive Event where
  | snapStart (port : Port) (imgNum : Nat)
  | procWait (port : Port)
  | waitBoth
  | sleepSettle
  | portShift (ports : List Port)
  | rotate (imgNum : Nat) (degrees : Nat)
  | errorReport (what : String)
  | unrecognized
deriving DecidableEq, Repr

/-- Result of one loop iteration: the new state, the recorded events, and
whether the loop exits. -/
structure StepResult where
  state : ScanState
  events : List Event
  quit : Bool
deriving DecidableEq, Repr

/-- `wait(process1, process2)`: polls both processes until both exited,
then returns `False` when either return code is nonzero, else `True`. -/
def wait (rc1 rc2 : Int) : Bool :=
  if rc1 ≠ 0 ∨ rc2 ≠ 0 then false else true

/-- The toggle branches at the top of each capture action, as they occur
inside the loop: both arms call `get_all_camera_serials()`, so both
deliver the same freshly queried snapshot of this iteration. -/
def preCaptureSnapshotMap (query_toggle : Bool) (env : CaptureEnv) :
    PortSerialMap :=
  if query_toggle then env.port_serial_map else env.port_serial_map

/-- A single-camera capture branch (`l` or `r`): resolve the bound serial,
abort with an error if absent, else snap, wait, and advance the counter by
one only on exit status zero. -/
def captureOne (p? : Option Port) (exit : Int) (which : String)
    (st : ScanState) : StepResult :=
  match p? with
  | none => ⟨st, [.errorReport ("Could not find " ++ which ++ " camera.")], false⟩
  | some p =>
    if exit = 0 then
      ⟨{ st with img_num := st.img_num + 1 },
        [.snapStart p st.img_num, .procWait p], false⟩
    else
      ⟨st, [.snapStart p st.img_num, .procWait p,
            .errorReport (which ++ " camera capture failed")], false⟩

/-- The capture-both branch: fresh snapshot, two-role resolution, the
port-shift check, then parallel capture (two snaps, `wait` on both) or
serial capture (snap left, wait, settle, optionally re-resolve right,
snap right, wait), and on full success the rotation step and
`img_num += 2`.  Every failure `continue`s before the counter advance. -/
def captureBoth (env : CaptureEnv) (st : ScanState) : StepResult :=
  let m := preCaptureSnapshotMap st.query_serials env
  match resolveBoth st.left_cam_serial st.right_cam_serial m with
  | (some pL, some pR) =>
    let ports := m.map Prod.fst
    let st1 := if ports = st.previous_cameras then st
               else { st with previous_cameras := ports,
                              left_cam_port := pL, right_cam_port := pR }
    let shiftEv : List Event :=
      if ports = st.previous_cameras then [] else [.portShift ports]
    if st.use_parallel then
      if wait env.exit_left env.exit_right then
        ⟨{ st1 with img_num := st.img_num + 2 },
          shiftEv ++ [.snapStart pL st.img_num, .snapStart pR (st.img_num + 1),
                      .waitBoth, .rotate st.img_num 270,
                      .rotate (st.img_num + 1) 90], false⟩
      else
        ⟨st1, shiftEv ++ [.snapStart pL st.img_num,
                          .snapStart pR (st.img_num + 1), .waitBoth,
                          .errorReport "Parallel capture failed"], false⟩
    else
      if env.exit_left = 0 then
        match (if st.query_serials then
                 resolve st.right_cam_serial env.port_serial_map2
               else some pR) with
        | some pR2 =>
          if env.exit_right = 0 then
            ⟨{ st1 with img_num := st.img_num + 2 },
              shiftEv ++ [.snapStart pL st.img_num, .procWait pL, .sleepSettle,
                          .snapStart pR2 (st.img_num + 1), .procWait pR2,
                          .rotate st.img_num 270,
                          .rotate (st.img_num + 1) 90], false⟩
          else
            ⟨st1, shiftEv ++ [.snapStart pL st.img_num, .procWait pL,
                              .sleepSettle, .snapStart pR2 (st.img_num + 1),
                              .procWait pR2,
                              .errorReport "Right camera capture failed"],
              false⟩
        | none =>
          ⟨st1, shiftEv ++ [.snapStart pL st.img_num, .procWait pL,
                            .sleepSettle,
                            .errorReport
                              "Could not find right camera before second capture."],
            false⟩
      else
        ⟨st1, shiftEv ++ [.snapStart pL st.img_num, .procWait pL,
                          .errorReport "Left camera capture failed"], false⟩
  | _ => ⟨st, [.errorReport "Could not find both cameras."], false⟩

/-- The recognized single-token commands of the loop, plus the fallback
for everything else. -/
inductive Cmd where
  | quitC
  | toggleMode
  | toggleQuery
  | jumpNum
  | capLeft
  | capRight
  | capBoth
  | fallback (x : String)
deriving DecidableEq, Repr

/-- The `if x == ...` dispatch chain of the loop body, in source order. -/
def parseCmd (x : String) : Cmd :=
  if x = "x" then .quitC
  else if x = "s" then .toggleMode
  else if x = "q" then .toggleQuery
  else if x = "n" then .jumpNum
  else if x = "l" then .capLeft
  else if x = "r" then .capRight
  else if x = "" ∨ x = CAPTURE_KEY then .capBoth
  else .fallback x

/-- The body of one loop iteration, per dispatched command.  `jumpNum`
reads the typed digit string and rounds it down to an even number; the
fallback treats the token itself as an image number the same way, or
reports an unrecognized command. -/
def runCmd (env : CaptureEnv) (st : ScanState) : Cmd → StepResult
  | .quitC => ⟨st, [], true⟩
  | .toggleMode => ⟨{ st with use_parallel := !st.use_parallel }, [], false⟩
  | .toggleQuery => ⟨{ st with query_serials := !st.query_serials }, [], false⟩
  | .jumpNum =>
    match int_py env.num_str with
    | some n => ⟨{ st with img_num := n / 2 * 2 }, [], false⟩
    | none => ⟨st, [.errorReport "Invalid number"], false⟩
  | .capLeft =>
    captureOne (resolve st.left_cam_serial (preCaptureSnapshotMap st.query_serials env))
      env.exit_left "left" st
  | .capRight =>
    captureOne (resolve st.right_cam_serial (preCaptureSnapshotMap st.query_serials env))
      env.exit_right "right" st
  | .capBoth => captureBoth env st
  | .fallback x =>
    match int_py x with
    | some n => ⟨{ st with img_num := n / 2 * 2 }, [], false⟩
    | none => ⟨st, [.unrecognized], false⟩

/-- One iteration of the main scanning loop on operator input `x`. -/
def loopStep (env : CaptureEnv) (st : ScanState) (x : String) : StepResult :=
  runCmd env st (parseCmd x)

/-- The loop run over a whole session: a fold of `loopStep` over the
sequence of (per-iteration inputs, operator token) pairs. -/
def runLoop (steps : List (CaptureEnv × String)) (st : ScanState) : ScanState :=
  steps.foldl (fun s es => (loopStep es.1 s es.2).state) st

/-- Projection of a capture-process launch out of an event. -/
def Event.snapOf : Event → Option (Port × Nat)
  | .snapStart p n => some (p, n)
  | _ => none

/-- The port whose capture process was started with image number `n` in
the given trace (first such launch). -/
def capturedBy (es : List Event) (n : Nat) : Option Port :=
  ((es.filterMap Event.snapOf).find? fun pn => pn.2 = n).map Prod.fst

/-- The trace without port-shift notices. -/
def nonShift (es : List Event) : List Event :=
  es.filter fun e =>
    match e with
    | .portShift _ => false
    | _ => true

theorem wait_eq_true_iff (rc1 rc2 : Int) :
    wait rc1 rc2 = true ↔ rc1 = 0 ∧ rc2 = 0 := by
  by_cases h1 : rc1 = 0 <;> by_cases h2 : rc2 = 0 <;> simp [wait, h1, h2]

theorem parseCmd_capture_key : parseCmd CAPTURE_KEY = Cmd.capBoth := rfl

theorem parseCmd_empty : parseCmd "" = Cmd.capBoth := rfl

theorem singleton_ne_of_toNat_ne {d c : Char} (h : d.toNat ≠ c.toNat) :
    String.mk [d] ≠ String.mk [c] := by
  intro hEq
  have h1 : [d] = [c] := congrArg String.data hEq
  injection h1 with h2 h3
  exact h (congrArg Char.toNat h2)

theorem singleton_ne_letter {d c : Char} (hd : d.toNat ≤ 57)
    (hc : 97 ≤ c.toNat) : String.mk [d] ≠ String.mk [c] :=
  singleton_ne_of_toNat_ne (by omega)

theorem singleton_ne_empty (d : Char) : String.mk [d] ≠ "" := by
  intro hEq
  have h1 : [d] = [] := congrArg String.data hEq
  exact absurd h1 (by simp)

theorem parseCmd_digit {d : Char} (_h48 : 48 ≤ d.toNat)
    (h57 : d.toNat ≤ 57) :
    parseCmd (String.mk [d]) = Cmd.fallback (String.mk [d]) := by
  unfold parseCmd
  rw [if_neg (singleton_ne_letter h57 (by decide) :
        String.mk [d] ≠ String.mk ['x'])]
  rw [if_neg (singleton_ne_letter h57 (by decide) :
        String.mk [d] ≠ String.mk ['s'])]
  rw [if_neg (singleton_ne_letter h57 (by decide) :
        String.mk [d] ≠ String.mk ['q'])]
  rw [if_neg (singleton_ne_letter h57 (by decide) :
        String.mk [d] ≠ String.mk ['n'])]
  rw [if_neg (singleton_ne_letter h57 (by decide) :
        String.mk [d] ≠ String.mk ['l'])]
  rw [if_neg (singleton_ne_letter h57 (by decide) :
        String.mk [d] ≠ String.mk ['r'])]
  rw [if_neg]
  rintro (h | h)
  · exact singleton_ne_empty d h
  · exact (singleton_ne_letter h57 (by decide) :
      String.mk [d] ≠ String.mk ['b']) h

theorem int_py_singleton {d : Char} (h48 : 48 ≤ d.toNat) (h57 : d.toNat ≤ 57) :
    int_py (String.mk [d]) = some (d.toNat - 48) := by
  unfold int_py
  rw [if_pos]
  · simp
  · refine ⟨by simp, ?_⟩
    simp only [List.all_cons, List.all_nil, Bool.and_true, isDigitChar,
      decide_eq_true_eq]
    omega

theorem captureOne_img_of_fail (p? : Option Port) (exit : Int) (which : String)
    (st : ScanState) (h : p? = none ∨ exit ≠ 0) :
    (captureOne p? exit which st).state.img_num = st.img_num := by
  rcases h with rfl | hfail
  · rfl
  · cases p? with
    | none => rfl
    | some p => simp [captureOne, hfail]

theorem nonShift_append (a b : List Event) :
    nonShift (a ++ b) = nonShift a ++ nonShift b :=
  List.filter_append _ _

theorem nonShift_shiftEv (c : Prop) [Decidable c] (ports : List Port) :
    nonShift (if c then ([] : List Event) else [.portShift ports]) = [] := by
  split <;> simp [nonShift]

theorem filterMap_snapOf_shiftEv (c : Prop) [Decidable c] (ports : List Port) :
    (if c then ([] : List Event) else [.portShift ports]).filterMap
      Event.snapOf = [] := by
  split <;> simp [Event.snapOf]

theorem captureBoth_parallel_ok (env : CaptureEnv) (st : ScanState)
    (pL pR : Port) (hmode : st.use_parallel = true)
    (hres : resolveBoth st.left_cam_serial st.right_cam_serial
        (preCaptureSnapshotMap st.query_serials env) = (some pL, some pR))
    (hl : env.exit_left = 0) (hr : env.exit_right = 0) :
    nonShift (captureBoth env st).events =
      [.snapStart pL st.img_num, .snapStart pR (st.img_num + 1), .waitBoth,
       .rotate st.img_num 270, .rotate (st.img_num + 1) 90] ∧
    (captureBoth env st).state.img_num = st.img_num + 2 ∧
    (captureBoth env st).events.filterMap Event.snapOf =
      [(pL, st.img_num), (pR, st.img_num + 1)] := by
  have hw : wait env.exit_left env.exit_right = true := by
    simp [wait, hl, hr]
  simp only [captureBoth, hres, hmode, hw, if_true]
  refine ⟨?_, ?_, ?_⟩
  · rw [nonShift_append, nonShift_shiftEv]
    simp [nonShift]
  · trivial
  · rw [List.filterMap_append, filterMap_snapOf_shiftEv]
    simp [Event.snapOf]

theorem captureBoth_parallel_fail (env : CaptureEnv) (st : ScanState)
    (pL pR : Port) (hmode : st.use_parallel = true)
    (hres : resolveBoth st.left_cam_serial st.right_cam_serial
        (preCaptureSnapshotMap st.query_serials env) = (some pL, some pR))
    (hfail : ¬(env.exit_left = 0 ∧ env.exit_right = 0)) :
    nonShift (captureBoth env st).events =
      [.snapStart pL st.img_num, .snapStart pR (st.img_num + 1), .waitBoth,
       .errorReport "Parallel capture failed"] ∧
    (captureBoth env st).state.img_num = st.img_num := by
  have hw : wait env.exit_left env.exit_right = false := by
    cases h : wait env.exit_left env.exit_right with
    | false => rfl
    | true => exact absurd ((wait_eq_true_iff _ _).mp h) hfail
  simp only [captureBoth, hres, hmode, hw, if_true, Bool.false_eq_true,
    if_false]
  constructor
  · rw [nonShift_append, nonShift_shiftEv]
    simp [nonShift]
  · split <;> rfl

theorem captureBoth_serial_ok (env : CaptureEnv) (st : ScanState)
    (pL pR pR2 : Port) (hmode : st.use_parallel = false)
    (hres : resolveBoth st.left_cam_serial st.right_cam_serial
        (preCaptureSnapshotMap st.query_serials env) = (some pL, some pR))
    (hsecond : (if st.query_serials then
        resolve st.right_cam_serial env.port_serial_map2
      else some pR) = some pR2)
    (hl : env.exit_left = 0) (hr : env.exit_right = 0) :
    nonShift (captureBoth env st).events =
      [.snapStart pL st.img_num, .procWait pL, .sleepSettle,
       .snapStart pR2 (st.img_num + 1), .procWait pR2,
       .rotate st.img_num 270, .rotate (st.img_num + 1) 90] ∧
    (captureBoth env st).state.img_num = st.img_num + 2 ∧
    (captureBoth env st).events.filterMap Event.snapOf =
      [(pL, st.img_num), (pR2, st.img_num + 1)] := by
  simp only [captureBoth, hres, hmode, Bool.false_eq_true, if_false,
    if_pos hl, hsecond, if_pos hr]
  refine ⟨?_, trivial, ?_⟩
  · rw [nonShift_append, nonShift_shiftEv]
    simp [nonShift]
  · rw [List.filterMap_append, filterMap_snapOf_shiftEv]
    simp [Event.snapOf]

theorem captureBoth_serial_first_fail (env : CaptureEnv) (st : ScanState)
    (pL pR : Port) (hmode : st.use_parallel = false)
    (hres : resolveBoth st.left_cam_serial st.right_cam_serial
        (preCaptureSnapshotMap st.query_serials env) = (some pL, some pR))
    (hfail : env.exit_left ≠ 0) :
    (captureBoth env st).events.filterMap Event.snapOf = [(pL, st.img_num)] ∧
    (captureBoth env st).state.img_num = st.img_num := by
  simp only [captureBoth, hres, hmode, Bool.false_eq_true, if_false,
    if_neg hfail]
  constructor
  · rw [List.filterMap_append, filterMap_snapOf_shiftEv]
    simp [Event.snapOf]
  · split <;> rfl

theorem captureBoth_img_of_fail (env : CaptureEnv) (st : ScanState)
    (hfail :
      (resolveBoth st.left_cam_serial st.right_cam_serial
          (preCaptureSnapshotMap st.query_serials env)).1 = none ∨
      (resolveBoth st.left_cam_serial st.right_cam_serial
          (preCaptureSnapshotMap st.query_serials env)).2 = none ∨
      env.exit_left ≠ 0 ∨ env.exit_right ≠ 0 ∨
      (st.use_parallel = false ∧ st.query_serials = true ∧
        resolve st.right_cam_serial env.port_serial_map2 = none)) :
    (captureBoth env st).state.img_num = st.img_num := by
  rcases hres : resolveBoth st.left_cam_serial st.right_cam_serial
      (preCaptureSnapshotMap st.query_serials env) with ⟨o1, o2⟩
  rw [hres] at hfail
  cases o1 with
  | none => simp [captureBoth, hres]
  | some pL =>
    cases o2 with
    | none => simp [captureBoth, hres]
    | some pR =>
      rcases hfail with h | h | h | h | ⟨hp, hq, hr2⟩
      · simp at h
      · simp at h
      · cases hp : st.use_parallel with
        | true =>
          have hw : wait env.exit_left env.exit_right = false := by
            cases hww : wait env.exit_left env.exit_right with
            | false => rfl
            | true => exact absurd ((wait_eq_true_iff _ _).mp hww).1 h
          simp only [captureBoth, hres, hp, hw, Bool.false_eq_true, if_false,
            if_true]
          split <;> rfl
        | false =>
          simp only [captureBoth, hres, hp, Bool.false_eq_true, if_false,
            if_neg h]
          split <;> rfl
      · cases hp : st.use_parallel with
        | true =>
          have hw : wait env.exit_left env.exit_right = false := by
            cases hww : wait env.exit_left env.exit_right with
            | false => rfl
            | true => exact absurd ((wait_eq_true_iff _ _).mp hww).2 h
          simp only [captureBoth, hres, hp, hw, Bool.false_eq_true, if_false,
            if_true]
          split <;> rfl
        | false =>
          by_cases hel : env.exit_left = 0
          · simp only [captureBoth, hres, hp, Bool.false_eq_true, if_false,
              if_pos hel]
            cases hmatch : (if st.query_serials then
                resolve st.right_cam_serial env.port_serial_map2
              else some pR) with
            | none =>
              simp only [hmatch]
              split <;> rfl
            | some pR2 =>
              simp only [hmatch, if_neg h]
              split <;> rfl
          · simp only [captureBoth, hres, hp, Bool.false_eq_true, if_false,
              if_neg hel]
            split <;> rfl
      · by_cases hel : env.exit_left = 0
        · simp only [captureBoth, hres, hp, Bool.false_eq_true, if_false,
            if_pos hel, if_pos hq, hr2]
          split <;> rfl
        · simp only [captureBoth, hres, hp, Bool.false_eq_true, if_false,
            if_neg hel]
          split <;> rfl

theorem captureBoth_serial_fields (env : CaptureEnv) (st : ScanState) :
    (captureBoth env st).state.left_cam_serial = st.left_cam_serial ∧
    (captureBoth env st).state.right_cam_serial = st.right_cam_serial := by
  simp only [captureBoth]
  (repeat' split) <;> simp

theorem captureBoth_ports (env : CaptureEnv) (st : ScanState) :
    ((captureBoth env st).state.left_cam_port = st.left_cam_port ∨
      (resolveBoth st.left_cam_serial st.right_cam_serial
          (preCaptureSnapshotMap st.query_serials env)).1 =
        some ((captureBoth env st).state.left_cam_port)) ∧
    ((captureBoth env st).state.right_cam_port = st.right_cam_port ∨
      (resolveBoth st.left_cam_serial st.right_cam_serial
          (preCaptureSnapshotMap st.query_serials env)).2 =
        some ((captureBoth env st).state.right_cam_port)) := by
  simp only [captureBoth]
  (repeat' split) <;> simp_all

theorem captureOne_preserves (p? : Option Port) (exit : Int) (which : String)
    (st : ScanState) :
    (captureOne p? exit which st).state.left_cam_serial = st.left_cam_serial ∧
    (captureOne p? exit which st).state.right_cam_serial = st.right_cam_serial ∧
    (captureOne p? exit which st).state.left_cam_port = st.left_cam_port ∧
    (captureOne p? exit which st).state.right_cam_port = st.right_cam_port := by
  unfold captureOne
  (repeat' split) <;> simp

theorem loopStep_preserves (env : CaptureEnv) (st : ScanState) (x : String) :
    (loopStep env st x).state.left_cam_serial = st.left_cam_serial ∧
    (loopStep env st x).state.right_cam_serial = st.right_cam_serial ∧
    ((loopStep env st x).state.left_cam_port = st.left_cam_port ∨
      (resolveBoth st.left_cam_serial st.right_cam_serial
          (preCaptureSnapshotMap st.query_serials env)).1 =
        some ((loopStep env st x).state.left_cam_port)) ∧
    ((loopStep env st x).state.right_cam_port = st.right_cam_port ∨
      (resolveBoth st.left_cam_serial st.right_cam_serial
          (preCaptureSnapshotMap st.query_serials env)).2 =
        some ((loopStep env st x).state.right_cam_port)) := by
  unfold loopStep
  cases parseCmd x with
  | quitC => simp [runCmd]
  | toggleMode => simp [runCmd]
  | toggleQuery => simp [runCmd]
  | jumpNum =>
    simp only [runCmd]
    cases int_py env.num_str <;> simp
  | capLeft =>
    simp only [runCmd]
    have h := captureOne_preserves
      (resolve st.left_cam_serial (preCaptureSnapshotMap st.query_serials env))
      env.exit_left "left" st
    exact ⟨h.1, h.2.1, Or.inl h.2.2.1, Or.inl h.2.2.2⟩
  | capRight =>
    simp only [runCmd]
    have h := captureOne_preserves
      (resolve st.right_cam_serial (preCaptureSnapshotMap st.query_serials env))
      env.exit_right "right" st
    exact ⟨h.1, h.2.1, Or.inl h.2.2.1, Or.inl h.2.2.2⟩
  | capBoth =>
    simp only [runCmd]
    have h1 := captureBoth_serial_fields env st
    have h2 := captureBoth_ports env st
    exact ⟨h1.1, h1.2, h2.1, h2.2⟩
  | fallback y =>
    simp only [runCmd]
    cases int_py y <;> simp

/-- The failure modes of one shutter action, as listed by the error-path
claims: a requested role's identity absent from the fresh snapshot, a
capture process exiting nonzero in either mode (covering exactly one of a
synchronized pair failing), or serial mode's re-resolution of the second
device failing. -/
def captureFailure (env : CaptureEnv) (st : ScanState) (x : String) : Prop :=
  ((x = "" ∨ x = CAPTURE_KEY) ∧
    ((resolveBoth st.left_cam_serial st.right_cam_serial
        (preCaptureSnapshotMap st.query_serials env)).1 = none ∨
     (resolveBoth st.left_cam_serial st.right_cam_serial
        (preCaptureSnapshotMap st.query_serials env)).2 = none ∨
     env.exit_left ≠ 0 ∨ env.exit_right ≠ 0 ∨
     (st.use_parallel = false ∧ st.query_serials = true ∧
      resolve st.right_cam_serial env.port_serial_map2 = none))) ∨
  (x = "l" ∧
    (resolve st.left_cam_serial (preCaptureSnapshotMap st.query_serials env) =
        none ∨
     env.exit_left ≠ 0)) ∨
  (x = "r" ∧
    (resolve st.right_cam_serial (preCaptureSnapshotMap st.query_serials env) =
        none ∨
     env.exit_right ≠ 0))

/-- A session state as bound at session start: counter zero, parallel
mode, no per-capture serial query, left camera serial `SL` seen at port
`p1`, right camera serial `SR` at `p2`. -/
def stA : ScanState :=
  { img_num := 0, use_parallel := true, query_serials := false,
    left_cam_serial := "SL", right_cam_serial := "SR",
    left_cam_port := "p1", right_cam_port := "p2",
    previous_cameras := ["p1", "p2"] }

/-- An iteration input whose snapshot finds both bound serials at their
ports and whose capture processes both exit 0. -/
def envOK : CaptureEnv :=
  { port_serial_map := [("p1", "SL"), ("p2", "SR")],
    port_serial_map2 := [("p1", "SL"), ("p2", "SR")],
    exit_left := 0, exit_right := 0, num_str := "7" }

/-- C1: for every snapshot in which the bound identity is carried by at
most one address, the reverse lookup returns exactly the address mapped
to that identity when present and `none` when absent, and the result is
invariant under any permutation of the discovery order; the spec's
concrete scenario (Primary bound to `SN-B`, Secondary to `SN-A`, with the
addresses discovered in the opposite order) resolves to `addr2` and
`addr1` through the capture-both lookup. -/
theorem resolve_role_correct (m : PortSerialMap) (bound : Serial)
    (hfun : ∀ a b : Port, (a, bound) ∈ m → (b, bound) ∈ m → a = b) :
    (∀ p : Port, (p, bound) ∈ m → resolve bound m = some p) ∧
    (resolve bound m = none ↔ ∀ p : Port, (p, bound) ∉ m) ∧
    (∀ m' : PortSerialMap, m.Perm m' → resolve bound m' = resolve bound m) ∧
    resolveBoth "SN-B" "SN-A" [("addr1", "SN-A"), ("addr2", "SN-B")] =
      (some "addr2", some "addr1") :=
  ⟨fun _ hp => resolve_eq_some hfun hp, resolve_eq_none bound m,
   fun _ hperm => resolve_perm hfun hperm, by decide⟩

/-- C1 witness: the scenario snapshot from the spec, resolved for the
Primary role. -/
theorem resolve_role_correct_witness :
    resolve "SN-B" [("addr1", "SN-A"), ("addr2", "SN-B")] = some "addr2" :=
  (resolve_role_correct [("addr1", "SN-A"), ("addr2", "SN-B")] "SN-B"
    (fun a b ha hb => by
      simp only [List.mem_cons, List.not_mem_nil, or_false,
        Prod.mk.injEq] at ha hb
      rcases ha with ⟨h1, h2⟩ | ⟨h1, h2⟩
      · exact absurd h2 (by decide)
      · rcases hb with ⟨g1, g2⟩ | ⟨g1, g2⟩
        · exact absurd g2 (by decide)
        · rw [h1, g1])).1 "addr2" (by decide)

/-- C2: whenever a shutter action fails — a requested role unresolved in
the fresh snapshot, a capture process exiting nonzero in parallel,
serial, or single-camera mode, or exactly one device of a synchronized
pair failing — the image counter is left unchanged. -/
theorem counter_unchanged_on_failure (env : CaptureEnv) (st : ScanState)
    (x : String) (h : captureFailure env st x) :
    (loopStep env st x).state.img_num = st.img_num := by
  rcases h with ⟨hx, hfail⟩ | ⟨hx, hfail⟩ | ⟨hx, hfail⟩
  · rcases hx with rfl | rfl
    · exact captureBoth_img_of_fail env st hfail
    · exact captureBoth_img_of_fail env st hfail
  · subst hx
    exact captureOne_img_of_fail _ _ _ _ hfail
  · subst hx
    exact captureOne_img_of_fail _ _ _ _ hfail

/-- C2 witness: the left capture process exits 1 during a parallel pair,
and the counter stays at 0. -/
theorem counter_unchanged_on_failure_witness :
    (loopStep { envOK with exit_left := 1 } stA CAPTURE_KEY).state.img_num =
      0 :=
  counter_unchanged_on_failure { envOK with exit_left := 1 } stA CAPTURE_KEY
    (by unfold captureFailure; decide)

/-- C3: in sequential (serial) capture mode, when the first (left)
device's capture process exits nonzero, the only capture process started
during the operation is the left one at the even slot: no process is
started for the second slot at all, so the second wrapper's start is
never called. -/
theorem serial_mode_aborts_before_second (env : CaptureEnv) (st : ScanState)
    (pL pR : Port) (hmode : st.use_parallel = false)
    (hres : resolveBoth st.left_cam_serial st.right_cam_serial
        (preCaptureSnapshotMap st.query_serials env) = (some pL, some pR))
    (hfail : env.exit_left ≠ 0) :
    (loopStep env st CAPTURE_KEY).events.filterMap Event.snapOf =
      [(pL, st.img_num)] ∧
    ∀ p : Port,
      Event.snapStart p (st.img_num + 1) ∉ (loopStep env st CAPTURE_KEY).events := by
  have hstep : loopStep env st CAPTURE_KEY = captureBoth env st := rfl
  rw [hstep]
  have h := captureBoth_serial_first_fail env st pL pR hmode hres hfail
  refine ⟨h.1, ?_⟩
  intro p hmem
  have hin : (p, st.img_num + 1) ∈
      (captureBoth env st).events.filterMap Event.snapOf :=
    List.mem_filterMap.mpr ⟨_, hmem, rfl⟩
  rw [h.1] at hin
  simp at hin

/-- C3 witness: serial mode, left capture exits 1 — exactly one snap is
started, on the left camera's port, and nothing touches slot 1. -/
theorem serial_mode_aborts_before_second_witness :
    (loopStep { envOK with exit_left := 1 }
        { stA with use_parallel := false } CAPTURE_KEY).events.filterMap
      Event.snapOf = [("p1", 0)] :=
  (serial_mode_aborts_before_second { envOK with exit_left := 1 }
    { stA with use_parallel := false } "p1" "p2" rfl (by decide)
    (by decide)).1

/-- C4 counterexample: odd counter states are reachable and a paired
capture then starts at an odd image number.  From the session-start
state, one successful left-only capture moves the counter to 1, and the
next paired capture launches its processes at slots 1 and 2 and leaves
the counter at 3 — so `next(2)` does not always return an even starting
number. -/
theorem paired_capture_odd_start :
    (loopStep envOK stA "l").state.img_num = 1 ∧
    ¬ (2 ∣ (loopStep envOK stA "l").state.img_num) ∧
    (loopStep envOK (loopStep envOK stA "l").state CAPTURE_KEY).events.filterMap
        Event.snapOf = [("p1", 1), ("p2", 2)] ∧
    (loopStep envOK (loopStep envOK stA "l").state CAPTURE_KEY).state.img_num =
      3 := by
  decide

/-- The port a successful paired capture uses for the second (right)
device in the given mode: a serial-mode operation with the query toggle
on re-resolves the right serial from the second fresh snapshot
(scan.py:1218-1223); every other mode keeps the port resolved from the
first snapshot. -/
def secondDevicePort (env : CaptureEnv) (st : ScanState) (pR : Port) :
    Option Port :=
  if st.use_parallel = false ∧ st.query_serials = true then
    resolve st.right_cam_serial env.port_serial_map2
  else some pR

theorem secondDevicePort_serial (env : CaptureEnv) (st : ScanState)
    (pR pR2 : Port) (hmode : st.use_parallel = false)
    (hsecond : secondDevicePort env st pR = some pR2) :
    (if st.query_serials then
        resolve st.right_cam_serial env.port_serial_map2
      else some pR) = some pR2 := by
  unfold secondDevicePort at hsecond
  cases hq : st.query_serials with
  | true =>
    rw [if_pos rfl]
    rwa [if_pos ⟨hmode, hq⟩] at hsecond
  | false =>
    rw [if_neg (by simp)]
    rwa [if_neg (by simp [hq])] at hsecond

theorem secondDevicePort_parallel (env : CaptureEnv) (st : ScanState)
    (pR pR2 : Port) (hmode : st.use_parallel = true)
    (hsecond : secondDevicePort env st pR = some pR2) : pR = pR2 := by
  unfold secondDevicePort at hsecond
  rw [if_neg (by simp [hmode])] at hsecond
  exact Option.some.inj hsecond

/-- C4 (amended): in either capture mode, a successful paired capture
starts its two captures at the current counter value and the value plus
one — so the pair starts even exactly when the counter is even — and
leaves the counter at start + 2; the operator override sets the counter
to the largest even number at most the typed value, so the next paired
capture then starts there.  (The claim's unconditional evenness fails
because single-camera captures advance the counter by 1.) -/
theorem paired_capture_counter_amended :
    (∀ (env : CaptureEnv) (st : ScanState) (pL pR pR2 : Port),
      resolveBoth st.left_cam_serial st.right_cam_serial
          (preCaptureSnapshotMap st.query_serials env) = (some pL, some pR) →
      secondDevicePort env st pR = some pR2 →
      env.exit_left = 0 → env.exit_right = 0 →
      ((loopStep env st CAPTURE_KEY).events.filterMap Event.snapOf).map
          Prod.snd = [st.img_num, st.img_num + 1] ∧
      (loopStep env st CAPTURE_KEY).state.img_num = st.img_num + 2) ∧
    (∀ (env : CaptureEnv) (st : ScanState) (n : Nat),
      int_py env.num_str = some n →
      (loopStep env st "n").state.img_num = n / 2 * 2 ∧
      2 ∣ n / 2 * 2 ∧ n / 2 * 2 ≤ n ∧
      ∀ m : Nat, 2 ∣ m → m ≤ n → m ≤ n / 2 * 2) := by
  constructor
  · intro env st pL pR pR2 hres hsecond hl hr
    have hstep : loopStep env st CAPTURE_KEY = captureBoth env st := rfl
    rw [hstep]
    cases hp : st.use_parallel with
    | true =>
      have h := captureBoth_parallel_ok env st pL pR hp hres hl hr
      rw [h.2.2]
      exact ⟨rfl, h.2.1⟩
    | false =>
      have h := captureBoth_serial_ok env st pL pR pR2 hp hres
        (secondDevicePort_serial env st pR pR2 hp hsecond) hl hr
      rw [h.2.2]
      exact ⟨rfl, h.2.1⟩
  · intro env st n hn
    have hstep : loopStep env st "n" = runCmd env st Cmd.jumpNum := rfl
    rw [hstep]
    simp only [runCmd, hn]
    refine ⟨trivial, ?_, ?_, ?_⟩
    · omega
    · omega
    · intro m h2 hle
      omega

/-- C4 witness: a successful sequential-mode pair from counter 0 ends at
2, and an override to 7 puts the counter at 6. -/
theorem paired_capture_counter_amended_witness :
    (loopStep envOK { stA with use_parallel := false }
        CAPTURE_KEY).state.img_num = 2 ∧
    (loopStep envOK stA "n").state.img_num = 6 :=
  ⟨(paired_capture_counter_amended.1 envOK { stA with use_parallel := false }
      "p1" "p2" "p2" (by decide) (by decide) rfl rfl).2,
   (paired_capture_counter_amended.2 envOK stA 7 (by decide)).1⟩

/-- C5 counterexample: in the successful paired capture from the
session-start state, the capture process for the even slot (image 0) is
started on `p1` — the port resolved for the LEFT (Primary) camera — not
on the Secondary's resolved port `p2`, refuting "the even-numbered
filename holds the Secondary (right) device's captured slot". -/
theorem even_file_not_from_secondary :
    capturedBy (loopStep envOK stA CAPTURE_KEY).events 0 = some "p1" ∧
    (resolveBoth stA.left_cam_serial stA.right_cam_serial
        envOK.port_serial_map).2 = some "p2" ∧
    capturedBy (loopStep envOK stA CAPTURE_KEY).events 0 ≠ some "p2" ∧
    (loopStep envOK stA CAPTURE_KEY).state.img_num = 2 := by
  decide

theorem pair_outcome_of_trace {es : List Event} {pL pR2 : Port} {n : Nat}
    (hsnap : es.filterMap Event.snapOf = [(pL, n), (pR2, n + 1)])
    (hrot1 : Event.rotate n 270 ∈ nonShift es)
    (hrot2 : Event.rotate (n + 1) 90 ∈ nonShift es) :
    capturedBy es n = some pL ∧ capturedBy es (n + 1) = some pR2 ∧
    Event.rotate n 270 ∈ es ∧ Event.rotate (n + 1) 90 ∈ es := by
  refine ⟨?_, ?_, List.mem_of_mem_filter hrot1, List.mem_of_mem_filter hrot2⟩
  · unfold capturedBy
    rw [hsnap, List.find?_cons_of_pos _ (by simp)]
    rfl
  · unfold capturedBy
    rw [hsnap, List.find?_cons_of_neg _ (by simp),
      List.find?_cons_of_pos _ (by simp)]
    rfl

/-- C5 (amended): in every successful paired capture, parallel or
sequential, the even slot (`img_num`) is captured by the port resolved
for the LEFT (Primary) camera and rotated 270 degrees, and the odd slot
(`img_num + 1`) by the port the operation resolved for the RIGHT
(Secondary) camera — the second fresh snapshot's resolution in
sequential mode with the query toggle on, the first snapshot's
otherwise — rotated 90 degrees.  The rotation step's variable names
(`rightpic` for the even file, `leftpic` for the odd) label the files
opposite to the devices that wrote them. -/
theorem pair_file_assignment (env : CaptureEnv) (st : ScanState)
    (pL pR pR2 : Port)
    (hres : resolveBoth st.left_cam_serial st.right_cam_serial
        (preCaptureSnapshotMap st.query_serials env) = (some pL, some pR))
    (hsecond : secondDevicePort env st pR = some pR2)
    (hl : env.exit_left = 0) (hr : env.exit_right = 0) :
    capturedBy (loopStep env st CAPTURE_KEY).events st.img_num = some pL ∧
    capturedBy (loopStep env st CAPTURE_KEY).events (st.img_num + 1) =
      some pR2 ∧
    Event.rotate st.img_num 270 ∈ (loopStep env st CAPTURE_KEY).events ∧
    Event.rotate (st.img_num + 1) 90 ∈ (loopStep env st CAPTURE_KEY).events := by
  have hstep : loopStep env st CAPTURE_KEY = captureBoth env st := rfl
  rw [hstep]
  cases hp : st.use_parallel with
  | true =>
    obtain rfl : pR = pR2 := secondDevicePort_parallel env st pR pR2 hp hsecond
    have h := captureBoth_parallel_ok env st pL pR hp hres hl hr
    exact pair_outcome_of_trace h.2.2 (by rw [h.1]; simp) (by rw [h.1]; simp)
  | false =>
    have h := captureBoth_serial_ok env st pL pR pR2 hp hres
      (secondDevicePort_serial env st pR pR2 hp hsecond) hl hr
    exact pair_outcome_of_trace h.2.2 (by rw [h.1]; simp) (by rw [h.1]; simp)

/-- C5 amended-claim witness: a successful sequential-mode pair from the
session-start state. -/
theorem pair_file_assignment_witness :
    capturedBy (loopStep envOK { stA with use_parallel := false }
        CAPTURE_KEY).events 0 = some "p1" ∧
    Event.rotate 0 270 ∈
      (loopStep envOK { stA with use_parallel := false } CAPTURE_KEY).events :=
  have h := pair_file_assignment envOK { stA with use_parallel := false }
    "p1" "p2" "p2" (by decide) (by decide) rfl rfl
  ⟨h.1, h.2.2.1⟩

/-- C6: a synchronized (parallel) capture starts both capture processes
back to back — the trace is snap, snap, then the joint wait, with no wait
between the two starts — the operation succeeds exactly when both
processes exit 0 (`wait`), and on full success the counter advances by
exactly 2 with both files committed (rotated into place), while any
failure leaves the counter unchanged. -/
theorem parallel_capture_spec (env : CaptureEnv) (st : ScanState)
    (pL pR : Port) (hmode : st.use_parallel = true)
    (hres : resolveBoth st.left_cam_serial st.right_cam_serial
        (preCaptureSnapshotMap st.query_serials env) = (some pL, some pR)) :
    (wait env.exit_left env.exit_right = true ↔
      env.exit_left = 0 ∧ env.exit_right = 0) ∧
    nonShift (loopStep env st CAPTURE_KEY).events =
      [.snapStart pL st.img_num, .snapStart pR (st.img_num + 1), .waitBoth] ++
      (if env.exit_left = 0 ∧ env.exit_right = 0 then
         [.rotate st.img_num 270, .rotate (st.img_num + 1) 90]
       else [.errorReport "Parallel capture failed"]) ∧
    (env.exit_left = 0 ∧ env.exit_right = 0 →
      (loopStep env st CAPTURE_KEY).state.img_num = st.img_num + 2) ∧
    (¬(env.exit_left = 0 ∧ env.exit_right = 0) →
      (loopStep env st CAPTURE_KEY).state.img_num = st.img_num) := by
  have hstep : loopStep env st CAPTURE_KEY = captureBoth env st := rfl
  rw [hstep]
  by_cases hok : env.exit_left = 0 ∧ env.exit_right = 0
  · have h := captureBoth_parallel_ok env st pL pR hmode hres hok.1 hok.2
    rw [if_pos hok]
    exact ⟨wait_eq_true_iff _ _, h.1, fun _ => h.2.1, fun hc => absurd hok hc⟩
  · have h := captureBoth_parallel_fail env st pL pR hmode hres hok
    rw [if_neg hok]
    exact ⟨wait_eq_true_iff _ _, h.1, fun hc => absurd hc hok, fun _ => h.2⟩

/-- C6 witness: both exits zero at the session-start state — `wait`
reports success and the counter advances to 2. -/
theorem parallel_capture_spec_witness :
    wait 0 0 = true ∧
    (loopStep envOK stA CAPTURE_KEY).state.img_num = 2 :=
  have h := parallel_capture_spec envOK stA "p1" "p2" rfl (by decide)
  ⟨(h.1).mpr ⟨rfl, rfl⟩, h.2.2.1 ⟨rfl, rfl⟩⟩

theorem gacs_cons (summary : Port → Option String) (a : Port)
    (t : List Port) :
    get_all_camera_serials summary (a :: t) =
      match (query_single_port_serial summary a).2 with
      | some s => (a, s) :: get_all_camera_serials summary t
      | none => get_all_camera_serials summary t := by
  cases hqq : (query_single_port_serial summary a).2 <;>
    simp [get_all_camera_serials, List.filterMap_cons, hqq]

/-- C7: the snapshot holds an address-to-identity entry exactly for the
discovered ports whose identify call returned a serial; the per-port
identify is total (never raises) and comes back absent exactly on a
subprocess timeout/error or a parse failure; and ports whose identify
failed leave no trace at all in the snapshot — it equals the snapshot
taken over only the successfully identified ports, so nothing is
reported for the excluded devices. -/
theorem snapshot_excludes_unidentified :
    ∀ (summary : Port → Option String) (ports : List Port) (p : Port)
      (s : Serial),
      ((p, s) ∈ get_all_camera_serials summary ports ↔
        p ∈ ports ∧ (query_single_port_serial summary p).2 = some s) ∧
      ((query_single_port_serial summary p).2 = none ↔
        summary p = none ∨
          ∃ out, summary p = some out ∧ findSerial out = none) ∧
      get_all_camera_serials summary ports =
        get_all_camera_serials summary
          (ports.filter fun q =>
            ((query_single_port_serial summary q).2).isSome) := by
  intro summary ports p s
  refine ⟨?_, ?_, ?_⟩
  · rw [get_all_camera_serials, List.mem_filterMap]
    constructor
    · rintro ⟨a, ha, heq⟩
      cases hq : (query_single_port_serial summary a).2 with
      | none => rw [hq] at heq; simp at heq
      | some s2 =>
        rw [hq] at heq
        simp only [Option.some.injEq, Prod.mk.injEq] at heq
        obtain ⟨rfl, rfl⟩ := heq
        exact ⟨ha, hq⟩
    · rintro ⟨hp, hq⟩
      exact ⟨p, hp, by rw [hq]⟩
  · cases hs : summary p with
    | none => simp [query_single_port_serial, get_camera_info_serial, hs]
    | some out => simp [query_single_port_serial, get_camera_info_serial, hs]
  · induction ports with
    | nil => rfl
    | cons a t ih =>
      rw [List.filter_cons]
      cases hqq : (query_single_port_serial summary a).2 with
      | none => simp [gacs_cons, hqq, ih]
      | some s2 => simp [gacs_cons, hqq, ih]

/-- C8: the role-to-identity binding fixed at session start is immutable
across the whole session — no loop iteration, in any mode, rewrites the
bound serials, over a single step or any sequence of steps — while the
role-to-address fields change only to the address freshly resolved for
that same bound serial during a capture operation. -/
theorem binding_immutable :
    (∀ (env : CaptureEnv) (st : ScanState) (x : String),
      (loopStep env st x).state.left_cam_serial = st.left_cam_serial ∧
      (loopStep env st x).state.right_cam_serial = st.right_cam_serial ∧
      ((loopStep env st x).state.left_cam_port = st.left_cam_port ∨
        (resolveBoth st.left_cam_serial st.right_cam_serial
            (preCaptureSnapshotMap st.query_serials env)).1 =
          some ((loopStep env st x).state.left_cam_port)) ∧
      ((loopStep env st x).state.right_cam_port = st.right_cam_port ∨
        (resolveBoth st.left_cam_serial st.right_cam_serial
            (preCaptureSnapshotMap st.query_serials env)).2 =
          some ((loopStep env st x).state.right_cam_port))) ∧
    (∀ (steps : List (CaptureEnv × String)) (st : ScanState),
      (runLoop steps st).left_cam_serial = st.left_cam_serial ∧
      (runLoop steps st).right_cam_serial = st.right_cam_serial) := by
  refine ⟨loopStep_preserves, ?_⟩
  intro steps
  induction steps with
  | nil => intro st; exact ⟨rfl, rfl⟩
  | cons a t ih =>
    intro st
    have h1 := loopStep_preserves a.1 st a.2
    have h2 := ih (loopStep a.1 st a.2).state
    have hrun : runLoop (a :: t) st = runLoop t (loopStep a.1 st a.2).state :=
      rfl
    rw [hrun]
    exact ⟨h2.1.trans h1.1, h2.2.trans h1.2.1⟩

/-- C9: the branch taken with the "query serials before capture" toggle
enabled and the branch taken with it disabled invoke the same snapshot
function, so the pre-capture resolution input is identical in both
toggle states — both over the registry model and inside the loop
embedding. -/
theorem toggle_branches_identical :
    (∀ (summary : Port → Option String) (ports : List Port),
      preCaptureSnapshot true summary ports =
        preCaptureSnapshot false summary ports) ∧
    ∀ env : CaptureEnv,
      preCaptureSnapshotMap true env = preCaptureSnapshotMap false env :=
  ⟨fun _ _ => rfl, fun _ => rfl⟩

/-- C10: a single-character input whose character is a decimal digit
(ASCII 48-57) falls through every recognized command key to the numeric
fallback: the loop silently sets the counter to the digit's value rounded
down to an even number (hence one of 0, 2, 4, 6, 8) and never reports an
unrecognized command. -/
theorem digit_fallback_override (env : CaptureEnv) (st : ScanState)
    {d : Char} (h48 : 48 ≤ d.toNat) (h57 : d.toNat ≤ 57) :
    (loopStep env st (String.mk [d])).state.img_num =
      (d.toNat - 48) / 2 * 2 ∧
    2 ∣ (loopStep env st (String.mk [d])).state.img_num ∧
    (loopStep env st (String.mk [d])).state.img_num ≤ 8 ∧
    Event.unrecognized ∉ (loopStep env st (String.mk [d])).events := by
  have hstep : loopStep env st (String.mk [d]) =
      runCmd env st (Cmd.fallback (String.mk [d])) := by
    unfold loopStep
    rw [parseCmd_digit h48 h57]
  rw [hstep]
  simp only [runCmd, int_py_singleton h48 h57]
  refine ⟨trivial, ?_, ?_, ?_⟩
  · omega
  · omega
  · simp

/-- C10 witness: the input `7` sets the counter to 6 without an
unrecognized-command report. -/
theorem digit_fallback_override_witness :
    (loopStep envOK stA (String.mk ['7'])).state.img_num = 6 ∧
    Event.unrecognized ∉ (loopStep envOK stA (String.mk ['7'])).events :=
  have h := digit_fallback_override envOK stA (d := '7') (by decide) (by decide)
  ⟨h.1, h.2.2.2⟩

end BookScanner
